import Mathlib

/-!
Shallow embedding of the admin (circuit-proposal coordination) service of
`libsplinter` (`src/libsplinter/src/admin/mod.rs`), together with theorems
checking the natural-language specification against it.

Modelling conventions:
* Byte sequences are `List Nat` (each element standing for one byte).
* The protobuf wire codec (`protobuf::parse_from_bytes` / `write_to_bytes`)
  is an external library treated by the spec as an opaque serialization
  contract; it is modelled by an executable length-prefixed codec
  (`encodePayload` / `parsePayload`) with the roundtrip property the real
  codec provides.  Likewise `serde_json` and openssl's SHA-256 digest are
  modelled by executable stand-ins (`createCircuitFromBytes`, `sha256Digest`).
* Fallible Rust code returning `Result` becomes `Except`; the stateful
  service becomes explicit state passing (`AdminService` in, `AdminService`
  out), with the messages sent and the peer-connection attempts of a call
  returned alongside the result.
* `HashMap<String, CircuitProposal>` is modelled as an association list with
  replace-on-insert semantics (`mapInsert` / `mapLookup`).
-/

/-! ### Wire codec primitives (stand-in for the external protobuf codec) -/

/-- Decode one byte as a `Nat`, returning the remaining input. -/
def decodeNat : List Nat → Option (Nat × List Nat)
  | [] => none
  | b :: rest => some (b, rest)

/-- Encode one `Nat` field. -/
def encodeNat (n : Nat) : List Nat := [n]

/-- Decode a run of `n` raw bytes. -/
def decodeRaw : Nat → List Nat → Option (List Nat × List Nat)
  | 0, bs => some ([], bs)
  | _ + 1, [] => none
  | k + 1, b :: bs =>
    match decodeRaw k bs with
    | none => none
    | some (xs, rest) => some (b :: xs, rest)

/-- Encode a string as its character count followed by the character codes. -/
def encodeString (s : String) : List Nat :=
  s.data.length :: s.data.map Char.toNat

/-- Decode a string (character count, then that many character codes). -/
def decodeString (bs : List Nat) : Option (String × List Nat) :=
  match decodeNat bs with
  | none => none
  | some (n, bs) =>
    match decodeRaw n bs with
    | none => none
    | some (codes, rest) => some (String.mk (codes.map Char.ofNat), rest)

/-- Encode a list field: element count followed by the encoded elements. -/
def encodeList {α : Type} (enc : α → List Nat) (xs : List α) : List Nat :=
  xs.length :: (xs.map enc).flatten

/-- Decode `k` consecutive elements with the element decoder `dec`. -/
def decodeCount {α : Type} (dec : List Nat → Option (α × List Nat)) :
    Nat → List Nat → Option (List α × List Nat)
  | 0, bs => some ([], bs)
  | k + 1, bs =>
    match dec bs with
    | none => none
    | some (x, bs) =>
      match decodeCount dec k bs with
      | none => none
      | some (xs, rest) => some (x :: xs, rest)

/-- Decode a list field (element count, then the elements). -/
def decodeSeq {α : Type} (dec : List Nat → Option (α × List Nat))
    (bs : List Nat) : Option (List α × List Nat) :=
  match bs with
  | [] => none
  | n :: bs => decodeCount dec n bs

/-! ### Data model

The protobuf message definitions (`crate::protos::admin`) are generated code
not present under `src/`; the structures below follow the spec's envelope
schema (§6), which lists their fields, and the accessors used by
`admin/mod.rs`. -/

/-- A circuit member node: identity and network endpoint. -/
structure SplinterNode where
  node_id : String
  endpoint : String
deriving DecidableEq, Repr

/-- A roster entry: a service a circuit will host. -/
structure SplinterService where
  service_id : String
  service_type : String
  allowed_nodes : List String
deriving DecidableEq, Repr

/-- Authorization enumeration (one modelled variant, per the spec). -/
inductive AuthorizationType where
  | TRUST_AUTHORIZATION
deriving DecidableEq, Repr

/-- Persistence enumeration (one modelled variant, per the spec). -/
inductive PersistenceType where
  | ANY_PERSISTENCE
deriving DecidableEq, Repr

/-- Route enumeration (one modelled variant, per the spec). -/
inductive RouteType where
  | ANY_ROUTE
deriving DecidableEq, Repr

/-- A proposed circuit (spec §6 `Circuit` schema). -/
structure Circuit where
  circuit_id : String
  members : List SplinterNode
  roster : List SplinterService
  authorization_type : AuthorizationType
  persistence : PersistenceType
  routes : RouteType
  circuit_management_type : String
  application_metadata : List Nat
  protocol_version : Nat
deriving DecidableEq, Repr

/-- Proposal kind; only CREATE is modelled (as in the source). -/
inductive CircuitProposal_ProposalType where
  | CREATE
deriving DecidableEq, Repr

/-- A circuit proposal: the circuit plus its content hash and kind. -/
structure CircuitProposal where
  proposal_type : CircuitProposal_ProposalType
  circuit_id : String
  circuit_hash : String
  circuit_proposal : Circuit
deriving DecidableEq, Repr

/-- Envelope action discriminator; `reserved n` stands for every enum value
other than `CIRCUIT_CREATE_REQUEST` (which is on the wire the tag 1). -/
inductive CircuitManagementPayload_Action where
  | CIRCUIT_CREATE_REQUEST
  | reserved (tag : Nat)
deriving DecidableEq, Repr

/-- The CREATE-request payload: carries the proposed circuit. -/
structure CircuitCreateRequest where
  circuit : Circuit
deriving DecidableEq, Repr

/-- The wire envelope exchanged between coordination services. -/
structure CircuitManagementPayload where
  action : CircuitManagementPayload_Action
  circuit_create_request : CircuitCreateRequest
deriving DecidableEq, Repr

/-! ### Encoding / decoding of the data model -/

/-- Encode a `SplinterNode`. -/
def encodeNode (n : SplinterNode) : List Nat :=
  encodeString n.node_id ++ encodeString n.endpoint

/-- Decode a `SplinterNode`. -/
def decodeNode (bs : List Nat) : Option (SplinterNode × List Nat) :=
  match decodeString bs with
  | none => none
  | some (nid, bs) =>
    match decodeString bs with
    | none => none
    | some (ep, rest) => some (⟨nid, ep⟩, rest)

/-- Encode a `SplinterService`. -/
def encodeService (s : SplinterService) : List Nat :=
  encodeString s.service_id ++ encodeString s.service_type ++
    encodeList encodeString s.allowed_nodes

/-- Decode a `SplinterService`. -/
def decodeService (bs : List Nat) : Option (SplinterService × List Nat) :=
  match decodeString bs with
  | none => none
  | some (sid, bs) =>
    match decodeString bs with
    | none => none
    | some (st, bs) =>
      match decodeSeq decodeString bs with
      | none => none
      | some (an, rest) => some (⟨sid, st, an⟩, rest)

/-- Encode the authorization enumeration. -/
def encodeAuth : AuthorizationType → List Nat
  | .TRUST_AUTHORIZATION => [0]

/-- Decode the authorization enumeration. -/
def decodeAuth : List Nat → Option (AuthorizationType × List Nat)
  | 0 :: rest => some (.TRUST_AUTHORIZATION, rest)
  | _ => none

/-- Encode the persistence enumeration. -/
def encodePersistence : PersistenceType → List Nat
  | .ANY_PERSISTENCE => [0]

/-- Decode the persistence enumeration. -/
def decodePersistence : List Nat → Option (PersistenceType × List Nat)
  | 0 :: rest => some (.ANY_PERSISTENCE, rest)
  | _ => none

/-- Encode the route enumeration. -/
def encodeRoute : RouteType → List Nat
  | .ANY_ROUTE => [0]

/-- Decode the route enumeration. -/
def decodeRoute : List Nat → Option (RouteType × List Nat)
  | 0 :: rest => some (.ANY_ROUTE, rest)
  | _ => none

/-- Serialize a `Circuit` (the model of `circuit.write_to_bytes()`). -/
def encodeCircuit (c : Circuit) : List Nat :=
  encodeString c.circuit_id ++
  encodeList encodeNode c.members ++
  encodeList encodeService c.roster ++
  encodeAuth c.authorization_type ++
  encodePersistence c.persistence ++
  encodeRoute c.routes ++
  encodeString c.circuit_management_type ++
  encodeList encodeNat c.application_metadata ++
  encodeNat c.protocol_version

/-- Decode a `Circuit`. -/
def decodeCircuit (bs : List Nat) : Option (Circuit × List Nat) :=
  match decodeString bs with
  | none => none
  | some (cid, bs) =>
    match decodeSeq decodeNode bs with
    | none => none
    | some (members, bs) =>
      match decodeSeq decodeService bs with
      | none => none
      | some (roster, bs) =>
        match decodeAuth bs with
        | none => none
        | some (auth, bs) =>
          match decodePersistence bs with
          | none => none
          | some (pers, bs) =>
            match decodeRoute bs with
            | none => none
            | some (rt, bs) =>
              match decodeString bs with
              | none => none
              | some (mgmt, bs) =>
                match decodeSeq decodeNat bs with
                | none => none
                | some (meta, bs) =>
                  match decodeNat bs with
                  | none => none
                  | some (ver, rest) =>
                    some (⟨cid, members, roster, auth, pers, rt, mgmt, meta, ver⟩, rest)

/-- Encode the action discriminator (CREATE is wire tag 1). -/
def encodeAction : CircuitManagementPayload_Action → List Nat
  | .CIRCUIT_CREATE_REQUEST => [1]
  | .reserved tag => [tag]

/-- Serialize an envelope (the model of `envelope.write_to_bytes()`). -/
def encodePayload (p : CircuitManagementPayload) : List Nat :=
  encodeAction p.action ++ encodeCircuit p.circuit_create_request.circuit

/-- Deserialize an envelope (the model of `protobuf::parse_from_bytes`);
`none` models a decode error. -/
def parsePayload (bs : List Nat) : Option CircuitManagementPayload :=
  match bs with
  | [] => none
  | b :: bs =>
    let action : CircuitManagementPayload_Action :=
      if b = 1 then .CIRCUIT_CREATE_REQUEST else .reserved b
    match decodeCircuit bs with
    | none => none
    | some (c, rest) => if rest = [] then some ⟨action, ⟨c⟩⟩ else none

/-! ### Hashing (`sha256`, `to_hex`) -/

/-- One lowercase hex digit, as written by Rust's `{:0x}` formatting. -/
def hexDigit (n : Nat) : Char :=
  if n < 10 then Char.ofNat (48 + n) else Char.ofNat (87 + n)

/-- The hex digits of one byte under `{:0x}`: NO zero padding, so a byte
below 0x10 produces a single digit (bytes are assumed `< 256`). -/
def hexByte (b : Nat) : List Char :=
  if b < 16 then [hexDigit b] else [hexDigit (b / 16), hexDigit (b % 16)]

/-- `to_hex` from `admin/mod.rs`: formats each byte with `{:0x}` and
concatenates. -/
def to_hex (bytes : List Nat) : String :=
  String.mk (bytes.map hexByte).flatten

/-- Modelled stand-in for openssl's SHA-256 digest (an external library):
an arbitrary fixed executable function of the input bytes producing a
32-byte digest. The theorems below depend only on it being a pure function
of the bytes, which is exactly what the real digest is. -/
def sha256Digest (bytes : List Nat) : List Nat :=
  (List.range 32).map
    (fun i => bytes.foldl (fun acc b => (acc * 31 + b + i) % 256) (i * 7 % 256))

/-- `sha256` from `admin/mod.rs`: serialize the circuit, digest the bytes,
hex-format the digest.  (The Rust original returns `Result` because the
external serializer and digest may fail; in the model both are total.) -/
def sha256 (circuit : Circuit) : String :=
  to_hex (sha256Digest (encodeCircuit circuit))

/-- `admin_service_id` from `admin/mod.rs`: derived coordination identity. -/
def admin_service_id (node_id : String) : String :=
  "admin::" ++ node_id

/-! ### The open-proposals map (model of `HashMap<String, CircuitProposal>`) -/

/-- Insert with replace-on-existing-key semantics (`HashMap::insert`). -/
def mapInsert {V : Type} : List (String × V) → String → V → List (String × V)
  | [], k, v => [(k, v)]
  | (k', v') :: rest, k, v =>
    if k' = k then (k, v) :: rest else (k', v') :: mapInsert rest k v

/-- Key lookup (`HashMap::get` / the value observed for a key). -/
def mapLookup {V : Type} : List (String × V) → String → Option V
  | [], _ => none
  | (k', v) :: rest, k => if k' = k then some v else mapLookup rest k

/-- Key membership (`HashMap::contains_key`). -/
def mapContains {V : Type} (m : List (String × V)) (k : String) : Bool :=
  (mapLookup m k).isSome

/-- Number of entries stored under a key. -/
def countKey {V : Type} (m : List (String × V)) (k : String) : Nat :=
  (m.filter (fun p => p.1 == k)).length

/-! ### Service model -/

/-- Error taxonomy of `ServiceError` (wrapped causes become `String`s;
variants not reachable in the model carry their message). -/
inductive ServiceError where
  | NotStarted
  | InvalidMessageFormat
  | PoisonedLock (msg : String)
  | UnableToHandleMessage (cause : String)
  | SendFailure (cause : String)
deriving DecidableEq, Repr

/-- External collaborator: the peer connector.  `connect_peer` takes a node
id and endpoint and succeeds or fails; modelled as a pure function so that
theorems can quantify over its behavior. -/
structure PeerConnector where
  connect_peer : String → String → Except String Unit

/-- External collaborator: the send-channel handle obtained from the
network registry at `start`. -/
structure NetworkSender where
  send : String → List Nat → Except String Unit

/-- Inbound-message context (sender identity); `handle_message` ignores it. -/
structure ServiceMessageContext where
  sender : String

/-- `AdminServiceState`: open-proposals map and the peer connector, jointly
behind one lock in the source (the lock itself has no observable effect in
this sequential model; poisoning only arises from panics). -/
structure AdminServiceState where
  open_proposals : List (String × CircuitProposal)
  peer_connector : PeerConnector

/-- `AdminServiceState::add_proposal`: unconditional insert keyed by the
proposal's own `circuit_id`. -/
def AdminServiceState.add_proposal (st : AdminServiceState)
    (circuit_proposal : CircuitProposal) : AdminServiceState :=
  { st with open_proposals :=
      mapInsert st.open_proposals circuit_proposal.circuit_id circuit_proposal }

/-- `AdminServiceState::has_proposal`: key membership test. -/
def AdminServiceState.has_proposal (st : AdminServiceState)
    (circuit_id : String) : Bool :=
  mapContains st.open_proposals circuit_id

/-- The admin service: node identity, derived service identity, optional
send-channel handle (present only while started), shared state. -/
structure AdminService where
  node_id : String
  service_id : String
  network_sender : Option NetworkSender
  admin_service_state : AdminServiceState

/-- `AdminService::new`. -/
def AdminService.new (node_id : String) (peer_connector : PeerConnector) :
    AdminService :=
  { node_id := node_id
    service_id := admin_service_id node_id
    network_sender := none
    admin_service_state :=
      { open_proposals := [], peer_connector := peer_connector } }

/-- External collaborator: the service network registry used by
`start`/`stop`. -/
structure ServiceNetworkRegistry where
  connect : String → Except String NetworkSender
  disconnect : String → Except String Unit

/-- `Service::start` for `AdminService`: obtain a send-channel handle from
the registry and store it. -/
def AdminService.start (svc : AdminService)
    (service_registry : ServiceNetworkRegistry) :
    Except String AdminService :=
  match service_registry.connect svc.service_id with
  | .error err => .error err
  | .ok network_sender => .ok { svc with network_sender := some network_sender }

/-- `Service::stop` for `AdminService`: release the binding and discard the
send-channel handle. -/
def AdminService.stop (svc : AdminService)
    (service_registry : ServiceNetworkRegistry) :
    Except String AdminService :=
  match service_registry.disconnect svc.service_id with
  | .error err => .error err
  | .ok _ => .ok { svc with network_sender := none }

/-- `Service::handle_message` for `AdminService`.  Returns the call's result
together with the (possibly updated) service. -/
def AdminService.handle_message (svc : AdminService) (message_bytes : List Nat)
    (_message_context : ServiceMessageContext) :
    Except ServiceError Unit × AdminService :=
  if svc.network_sender.isNone then (.error .NotStarted, svc)
  else
    match parsePayload message_bytes with
    | none => (.error .InvalidMessageFormat, svc)
    | some envelope =>
      match envelope.action with
      | .CIRCUIT_CREATE_REQUEST =>
        let proposed_circuit := envelope.circuit_create_request.circuit
        if svc.admin_service_state.has_proposal proposed_circuit.circuit_id then
          (.ok (), svc)
        else
          let proposal : CircuitProposal :=
            { proposal_type := .CREATE
              circuit_id := proposed_circuit.circuit_id
              circuit_hash := sha256 proposed_circuit
              circuit_proposal := proposed_circuit }
          (.ok (), { svc with admin_service_state :=
              svc.admin_service_state.add_proposal proposal })
      | .reserved _ => (.ok (), svc)

/-- Outcome of the member-connection loop of `propose_circuit`: the
peer-connect attempts made (in order), and either the collected remote
member ids or the first connection error. -/
structure ConnectOutcome where
  attempts : List (String × String)
  result : Except String (List String)

/-- The member loop of `propose_circuit`: for every member other than self,
connect to the peer (any failure aborts) and collect its node id. -/
def connect_members (self_node_id : String) (pc : PeerConnector) :
    List SplinterNode → ConnectOutcome
  | [] => ⟨[], .ok []⟩
  | node :: rest =>
    if self_node_id != node.node_id then
      match pc.connect_peer node.node_id node.endpoint with
      | .error err => ⟨[(node.node_id, node.endpoint)], .error err⟩
      | .ok _ =>
        let o := connect_members self_node_id pc rest
        ⟨(node.node_id, node.endpoint) :: o.attempts,
         o.result.map (node.node_id :: ·)⟩
    else connect_members self_node_id pc rest

/-- The send loop of `propose_circuit`: one copy of the envelope to each
collected member's coordination identity, in order; the first failure
aborts.  Returns the successfully delivered sends and the loop result. -/
def send_all (sender : NetworkSender) (envelope_bytes : List Nat) :
    List String → List (String × List Nat) × Except String Unit
  | [] => ([], .ok ())
  | member_id :: rest =>
    match sender.send (admin_service_id member_id) envelope_bytes with
    | .error err => ([], .error err)
    | .ok _ =>
      let s := send_all sender envelope_bytes rest
      ((admin_service_id member_id, envelope_bytes) :: s.1, s.2)

/-- Outcome of one `propose_circuit` call: result, updated service, the
peer-connect attempts made, and the envelopes sent. -/
structure ProposeOutcome where
  result : Except ServiceError Unit
  service : AdminService
  connect_attempts : List (String × String)
  sent : List (String × List Nat)

/-- `AdminService::propose_circuit`. -/
def AdminService.propose_circuit (svc : AdminService)
    (proposed_circuit : Circuit) : ProposeOutcome :=
  match svc.network_sender with
  | none => ⟨.error .NotStarted, svc, [], []⟩
  | some sender =>
    let conn := connect_members svc.node_id
      svc.admin_service_state.peer_connector proposed_circuit.members
    match conn.result with
    | .error err =>
      ⟨.error (.UnableToHandleMessage err), svc, conn.attempts, []⟩
    | .ok member_node_ids =>
      let proposal : CircuitProposal :=
        { proposal_type := .CREATE
          circuit_id := proposed_circuit.circuit_id
          circuit_hash := sha256 proposed_circuit
          circuit_proposal := proposed_circuit }
      let svc1 : AdminService :=
        { svc with admin_service_state :=
            svc.admin_service_state.add_proposal proposal }
      let envelope : CircuitManagementPayload :=
        ⟨.CIRCUIT_CREATE_REQUEST, ⟨proposed_circuit⟩⟩
      let envelope_bytes := encodePayload envelope
      let s := send_all sender envelope_bytes member_node_ids
      match s.2 with
      | .error err => ⟨.error (.SendFailure err), svc1, conn.attempts, s.1⟩
      | .ok _ => ⟨.ok (), svc1, conn.attempts, s.1⟩

/-- Fold a list of inbound deliveries through `handle_message`. -/
def handleAll (svc : AdminService) :
    List (List Nat × ServiceMessageContext) → AdminService
  | [] => svc
  | (bytes, ctx) :: rest => handleAll (svc.handle_message bytes ctx).2 rest

/-! ### The local REST submission path (`CreateCircuit::from_payload`) -/

/-- The REST-side circuit-creation request body shape. -/
structure CreateCircuit where
  circuit_id : String
  roster : List SplinterService
  members : List SplinterNode
  authorization_type : AuthorizationType
  persistence : PersistenceType
  routes : RouteType
  circuit_management_type : String
  application_metadata : List Nat
deriving DecidableEq, Repr

/-- Modelled stand-in for `serde_json::from_slice::<CreateCircuit>` (an
external library): an executable decoder of the request body, `none` on any
malformed body. -/
def createCircuitFromBytes (body : List Nat) : Option CreateCircuit :=
  match decodeString body with
  | none => none
  | some (cid, bs) =>
    match decodeSeq decodeService bs with
    | none => none
    | some (roster, bs) =>
      match decodeSeq decodeNode bs with
      | none => none
      | some (members, bs) =>
        match decodeAuth bs with
        | none => none
        | some (auth, bs) =>
          match decodePersistence bs with
          | none => none
          | some (pers, bs) =>
            match decodeRoute bs with
            | none => none
            | some (rt, bs) =>
              match decodeString bs with
              | none => none
              | some (mgmt, bs) =>
                match decodeSeq decodeNat bs with
                | none => none
                | some (meta, rest) =>
                  if rest = [] then
                    some ⟨cid, roster, members, auth, pers, rt, mgmt, meta⟩
                  else none

/-- Result of running body handling that may abort the process: `panicked`
models a Rust panic (process abort), `ok` a normal value. -/
inductive ParseOutcome (α : Type) where
  | panicked
  | ok (val : α)
deriving DecidableEq, Repr

/-- `CreateCircuit::from_payload`: collects the body bytes, then calls
`serde_json::from_slice(..).unwrap()` — the `.unwrap()` aborts the process
on a decode failure, modelled as `panicked`. -/
def CreateCircuit.from_payload (body : List Nat) : ParseOutcome CreateCircuit :=
  match createCircuitFromBytes body with
  | none => .panicked
  | some proposal => .ok proposal

/-- The `POST /auth/circuit` handler `create_circuit`: parse the body via
`CreateCircuit::from_payload`, respond 202 Accepted on success; a panic in
the parse propagates. -/
def create_circuit (body : List Nat) : ParseOutcome Nat :=
  match CreateCircuit.from_payload body with
  | .panicked => .panicked
  | .ok _ => .ok 202

/-! ### Codec roundtrip lemmas -/

theorem char_ofNat_toNat (c : Char) : Char.ofNat c.toNat = c := by
  rcases c with ⟨v, h⟩
  apply Char.ext
  simp [Char.ofNat, Char.toNat, h, Char.ofNatAux]
  apply UInt32.ext
  simp [UInt32.toNat]

theorem decodeRaw_append (l rest : List Nat) :
    decodeRaw l.length (l ++ rest) = some (l, rest) := by
  induction l with
  | nil => rfl
  | cons b bs ih => simp [decodeRaw, ih]

theorem decodeString_encode (s : String) (rest : List Nat) :
    decodeString (encodeString s ++ rest) = some (s, rest) := by
  have h1 : decodeRaw s.length (s.data.map Char.toNat ++ rest)
      = some (s.data.map Char.toNat, rest) := by
    have h2 := decodeRaw_append (s.data.map Char.toNat) rest
    simpa using h2
  have h3 : ∀ l : List Char, (l.map Char.toNat).map Char.ofNat = l := by
    intro l
    induction l with
    | nil => rfl
    | cons c cs ih => simp [char_ofNat_toNat, ih]
  simp [encodeString, decodeString, decodeNat, h1, h3]

theorem decodeNat_encode (n : Nat) (rest : List Nat) :
    decodeNat (encodeNat n ++ rest) = some (n, rest) := rfl

theorem decodeCount_encode {α : Type} (dec : List Nat → Option (α × List Nat))
    (enc : α → List Nat)
    (hdec : ∀ x rest, dec (enc x ++ rest) = some (x, rest)) :
    ∀ (xs : List α) (rest : List Nat),
      decodeCount dec xs.length ((xs.map enc).flatten ++ rest) = some (xs, rest) := by
  intro xs
  induction xs with
  | nil => intro rest; rfl
  | cons x xs ih =>
    intro rest
    simp [decodeCount, List.append_assoc, hdec, ih]

theorem decodeSeq_encode {α : Type} (dec : List Nat → Option (α × List Nat))
    (enc : α → List Nat)
    (hdec : ∀ x rest, dec (enc x ++ rest) = some (x, rest))
    (xs : List α) (rest : List Nat) :
    decodeSeq dec (encodeList enc xs ++ rest) = some (xs, rest) := by
  simp [encodeList, decodeSeq, decodeCount_encode dec enc hdec]

theorem decodeNode_encode (n : SplinterNode) (rest : List Nat) :
    decodeNode (encodeNode n ++ rest) = some (n, rest) := by
  simp [encodeNode, decodeNode, List.append_assoc, decodeString_encode]

theorem decodeSeq_node_encode (xs : List SplinterNode) (rest : List Nat) :
    decodeSeq decodeNode (encodeList encodeNode xs ++ rest) = some (xs, rest) :=
  decodeSeq_encode decodeNode encodeNode decodeNode_encode xs rest

theorem decodeSeq_string_encode (xs : List String) (rest : List Nat) :
    decodeSeq decodeString (encodeList encodeString xs ++ rest) = some (xs, rest) :=
  decodeSeq_encode decodeString encodeString decodeString_encode xs rest

theorem decodeService_encode (s : SplinterService) (rest : List Nat) :
    decodeService (encodeService s ++ rest) = some (s, rest) := by
  simp [encodeService, decodeService, List.append_assoc, decodeString_encode,
    decodeSeq_string_encode]

theorem decodeSeq_service_encode (xs : List SplinterService) (rest : List Nat) :
    decodeSeq decodeService (encodeList encodeService xs ++ rest) = some (xs, rest) :=
  decodeSeq_encode decodeService encodeService decodeService_encode xs rest

theorem decodeSeq_nat_encode (xs : List Nat) (rest : List Nat) :
    decodeSeq decodeNat (encodeList encodeNat xs ++ rest) = some (xs, rest) :=
  decodeSeq_encode decodeNat encodeNat decodeNat_encode xs rest

theorem decodeAuth_encode (a : AuthorizationType) (rest : List Nat) :
    decodeAuth (encodeAuth a ++ rest) = some (a, rest) := by
  cases a; rfl

theorem decodePersistence_encode (p : PersistenceType) (rest : List Nat) :
    decodePersistence (encodePersistence p ++ rest) = some (p, rest) := by
  cases p; rfl

theorem decodeRoute_encode (r : RouteType) (rest : List Nat) :
    decodeRoute (encodeRoute r ++ rest) = some (r, rest) := by
  cases r; rfl

theorem decodeCircuit_encode (c : Circuit) (rest : List Nat) :
    decodeCircuit (encodeCircuit c ++ rest) = some (c, rest) := by
  simp [encodeCircuit, decodeCircuit, List.append_assoc, decodeString_encode,
    decodeSeq_node_encode, decodeSeq_service_encode, decodeAuth_encode,
    decodePersistence_encode, decodeRoute_encode, decodeSeq_nat_encode,
    encodeNat, decodeNat]

theorem parsePayload_encode_create (c : Circuit) :
    parsePayload (encodePayload ⟨.CIRCUIT_CREATE_REQUEST, ⟨c⟩⟩)
      = some ⟨.CIRCUIT_CREATE_REQUEST, ⟨c⟩⟩ := by
  have h : decodeCircuit (encodeCircuit c) = some (c, []) := by
    have h2 := decodeCircuit_encode c []
    simpa using h2
  simp [encodePayload, encodeAction, parsePayload, h]

/-! ### Open-proposals map lemmas -/

theorem mapLookup_insert {V : Type} (m : List (String × V)) (k : String) (v : V) :
    mapLookup (mapInsert m k v) k = some v := by
  induction m with
  | nil => simp [mapInsert, mapLookup]
  | cons p rest ih =>
    obtain ⟨k', v'⟩ := p
    by_cases h : k' = k
    · simp [mapInsert, h, mapLookup]
    · simp [mapInsert, h, mapLookup, ih]

theorem mapLookup_insert_ne {V : Type} (m : List (String × V)) (k k' : String)
    (v : V) (h : k ≠ k') :
    mapLookup (mapInsert m k v) k' = mapLookup m k' := by
  induction m with
  | nil => simp [mapInsert, mapLookup, h]
  | cons p rest ih =>
    obtain ⟨k0, v0⟩ := p
    by_cases h0 : k0 = k
    · subst h0
      simp [mapInsert, mapLookup, h]
    · simp [mapInsert, h0, mapLookup, ih]

theorem mapLookup_none_countKey {V : Type} (m : List (String × V)) (k : String)
    (h : mapLookup m k = none) : countKey m k = 0 := by
  induction m with
  | nil => rfl
  | cons p rest ih =>
    obtain ⟨k0, v0⟩ := p
    by_cases h0 : k0 = k
    · simp [mapLookup, h0] at h
    · have h' : mapLookup rest k = none := by simpa [mapLookup, h0] using h
      simpa [countKey, h0] using ih h'

theorem countKey_insert_fresh {V : Type} (m : List (String × V)) (k : String)
    (v : V) (h : mapLookup m k = none) :
    countKey (mapInsert m k v) k = 1 := by
  induction m with
  | nil => simp [mapInsert, countKey]
  | cons p rest ih =>
    obtain ⟨k0, v0⟩ := p
    by_cases h0 : k0 = k
    · simp [mapLookup, h0] at h
    · have h' : mapLookup rest k = none := by simpa [mapLookup, h0] using h
      simpa [mapInsert, h0, countKey] using ih h'

theorem mapContains_false_lookup {V : Type} (m : List (String × V)) (k : String)
    (h : mapContains m k = false) : mapLookup m k = none := by
  cases hm : mapLookup m k with
  | none => rfl
  | some v => simp [mapContains, hm] at h

/-! ### Connection-loop and send-loop lemmas -/

/-- The members of a circuit other than a given node (the self node). -/
def remote_members (self_node_id : String) (members : List SplinterNode) :
    List SplinterNode :=
  members.filter (fun node => self_node_id != node.node_id)

theorem connect_members_all_ok (self_node_id : String) (pc : PeerConnector)
    (members : List SplinterNode)
    (h : ∀ node ∈ members, (self_node_id != node.node_id) = true →
      pc.connect_peer node.node_id node.endpoint = .ok ()) :
    connect_members self_node_id pc members =
      ⟨(remote_members self_node_id members).map
          (fun n => (n.node_id, n.endpoint)),
        .ok ((remote_members self_node_id members).map SplinterNode.node_id)⟩ := by
  induction members with
  | nil => rfl
  | cons node rest ih =>
    have hrest : ∀ n ∈ rest, (self_node_id != n.node_id) = true →
        pc.connect_peer n.node_id n.endpoint = .ok () :=
      fun n hn => h n (List.mem_cons_of_mem _ hn)
    cases hb : self_node_id != node.node_id with
    | true =>
      have hc := h node (List.mem_cons_self _ _) hb
      simp [connect_members, hb, hc, ih hrest, remote_members, Except.map]
    | false =>
      simp [connect_members, hb, ih hrest, remote_members]

theorem connect_members_fails (self_node_id : String) (pc : PeerConnector)
    (members : List SplinterNode)
    (h : ∃ node ∈ members, (self_node_id != node.node_id) = true ∧
      ∃ e, pc.connect_peer node.node_id node.endpoint = .error e) :
    ∃ node e, node ∈ members ∧ (self_node_id != node.node_id) = true ∧
      pc.connect_peer node.node_id node.endpoint = .error e ∧
      (connect_members self_node_id pc members).result = .error e := by
  induction members with
  | nil => simp at h
  | cons node rest ih =>
    cases hb : self_node_id != node.node_id with
    | true =>
      cases hc : pc.connect_peer node.node_id node.endpoint with
      | error e =>
        exact ⟨node, e, List.mem_cons_self _ _, hb, hc, by
          simp [connect_members, hb, hc]⟩
      | ok u =>
        have hrest : ∃ n ∈ rest, (self_node_id != n.node_id) = true ∧
            ∃ e, pc.connect_peer n.node_id n.endpoint = .error e := by
          obtain ⟨n, hn, hbn, e, he⟩ := h
          rcases List.mem_cons.mp hn with heq | hmem
          · subst heq
            rw [hc] at he
            exact absurd he (by simp)
          · exact ⟨n, hmem, hbn, e, he⟩
        obtain ⟨n, e, hmem, hbn, he, hres⟩ := ih hrest
        refine ⟨n, e, List.mem_cons_of_mem _ hmem, hbn, he, ?_⟩
        cases u
        simp [connect_members, hb, hc, hres, Except.map]
    | false =>
      have hrest : ∃ n ∈ rest, (self_node_id != n.node_id) = true ∧
          ∃ e, pc.connect_peer n.node_id n.endpoint = .error e := by
        obtain ⟨n, hn, hbn, e, he⟩ := h
        rcases List.mem_cons.mp hn with heq | hmem
        · subst heq
          rw [hb] at hbn
          exact absurd hbn (by simp)
        · exact ⟨n, hmem, hbn, e, he⟩
      obtain ⟨n, e, hmem, hbn, he, hres⟩ := ih hrest
      exact ⟨n, e, List.mem_cons_of_mem _ hmem, hbn, he, by
        simpa [connect_members, hb] using hres⟩

theorem send_all_ok (sender : NetworkSender) (envelope_bytes : List Nat)
    (ids : List String)
    (h : ∀ dest msg, sender.send dest msg = .ok ()) :
    send_all sender envelope_bytes ids =
      (ids.map (fun i => (admin_service_id i, envelope_bytes)), .ok ()) := by
  induction ids with
  | nil => rfl
  | cons i rest ih => simp [send_all, h, ih]

/-! ### Concrete instances used by witnesses and counterexamples -/

/-- A peer connector that accepts every connection. -/
def okConnector : PeerConnector := ⟨fun _ _ => .ok ()⟩

/-- A send handle that accepts every send. -/
def okSender : NetworkSender := ⟨fun _ _ => .ok ()⟩

/-- A started admin service on node `"node-a"` with an empty proposals map. -/
def svcA : AdminService :=
  { node_id := "node-a"
    service_id := admin_service_id "node-a"
    network_sender := some okSender
    admin_service_state := { open_proposals := [], peer_connector := okConnector } }

/-- A small concrete circuit with id `"c1"`. -/
def circA : Circuit :=
  { circuit_id := "c1"
    members := []
    roster := []
    authorization_type := .TRUST_AUTHORIZATION
    persistence := .ANY_PERSISTENCE
    routes := .ANY_ROUTE
    circuit_management_type := "x"
    application_metadata := []
    protocol_version := 2 }

/-- Like `circA` but with a different management type (same `circuit_id`). -/
def circB : Circuit := { circA with circuit_management_type := "y" }

/-! ### Claim theorems -/

/-- C1: for every circuit_id, processing two inbound CIRCUIT_CREATE_REQUEST
envelopes referencing it via `handle_message` (in either order, from any
senders) leaves exactly one stored proposal under that id, the retained
proposal is the one from the first envelope processed, and the second call
returns success without mutating the map. -/
theorem dedup_idempotent_handle_message
    (svc : AdminService) (b1 b2 : List Nat) (ctx1 ctx2 : ServiceMessageContext)
    (e1 e2 : CircuitManagementPayload)
    (hstarted : svc.network_sender.isSome = true)
    (hp1 : parsePayload b1 = some e1)
    (hp2 : parsePayload b2 = some e2)
    (ha1 : e1.action = .CIRCUIT_CREATE_REQUEST)
    (ha2 : e2.action = .CIRCUIT_CREATE_REQUEST)
    (hid : e2.circuit_create_request.circuit.circuit_id
      = e1.circuit_create_request.circuit.circuit_id)
    (hfresh : svc.admin_service_state.has_proposal
      e1.circuit_create_request.circuit.circuit_id = false) :
    (svc.handle_message b1 ctx1).1 = .ok () ∧
    ((svc.handle_message b1 ctx1).2.handle_message b2 ctx2).1 = .ok () ∧
    ((svc.handle_message b1 ctx1).2.handle_message b2 ctx2).2
      = (svc.handle_message b1 ctx1).2 ∧
    mapLookup (((svc.handle_message b1 ctx1).2.handle_message b2
          ctx2).2.admin_service_state.open_proposals)
        e1.circuit_create_request.circuit.circuit_id
      = some { proposal_type := .CREATE
               circuit_id := e1.circuit_create_request.circuit.circuit_id
               circuit_hash := sha256 e1.circuit_create_request.circuit
               circuit_proposal := e1.circuit_create_request.circuit } ∧
    countKey (((svc.handle_message b1 ctx1).2.handle_message b2
          ctx2).2.admin_service_state.open_proposals)
        e1.circuit_create_request.circuit.circuit_id = 1 := by
  cases hsnd : svc.network_sender with
  | none =>
    rw [hsnd] at hstarted
    simp at hstarted
  | some sender =>
    have h1 : svc.handle_message b1 ctx1 =
        (.ok (), { svc with
                   admin_service_state :=
                     svc.admin_service_state.add_proposal
                       { proposal_type := .CREATE
                         circuit_id := e1.circuit_create_request.circuit.circuit_id
                         circuit_hash := sha256 e1.circuit_create_request.circuit
                         circuit_proposal := e1.circuit_create_request.circuit } }) := by
      simp [AdminService.handle_message, hsnd, hp1, ha1, hfresh]
    have hlook : mapLookup svc.admin_service_state.open_proposals
        e1.circuit_create_request.circuit.circuit_id = none :=
      mapContains_false_lookup _ _ hfresh
    have hhas : (svc.admin_service_state.add_proposal
        { proposal_type := .CREATE
          circuit_id := e1.circuit_create_request.circuit.circuit_id
          circuit_hash := sha256 e1.circuit_create_request.circuit
          circuit_proposal := e1.circuit_create_request.circuit }).has_proposal
        e2.circuit_create_request.circuit.circuit_id = true := by
      simp [hid, AdminServiceState.add_proposal, AdminServiceState.has_proposal,
        mapContains, mapLookup_insert]
    have h2 : ((svc.handle_message b1 ctx1).2.handle_message b2 ctx2)
        = (.ok (), (svc.handle_message b1 ctx1).2) := by
      rw [h1]
      simp [AdminService.handle_message, hsnd, hp2, ha2, hhas]
    refine ⟨by rw [h1], by rw [h2], by rw [h2], ?_, ?_⟩
    · rw [h2, h1]
      simp [AdminServiceState.add_proposal, mapLookup_insert]
    · rw [h2, h1]
      simpa [AdminServiceState.add_proposal] using
        countKey_insert_fresh svc.admin_service_state.open_proposals
          e1.circuit_create_request.circuit.circuit_id _ hlook

/-- Witness for C1: the no-mutation conclusion of the second call, at a
concrete service and two concrete CREATE envelopes with the same id. -/
theorem dedup_idempotent_handle_message_witness :
    ((svcA.handle_message (encodePayload ⟨.CIRCUIT_CREATE_REQUEST, ⟨circA⟩⟩)
        ⟨"node-b"⟩).2.handle_message
        (encodePayload ⟨.CIRCUIT_CREATE_REQUEST, ⟨circB⟩⟩) ⟨"node-c"⟩).2
      = (svcA.handle_message (encodePayload ⟨.CIRCUIT_CREATE_REQUEST, ⟨circA⟩⟩)
        ⟨"node-b"⟩).2 :=
  (dedup_idempotent_handle_message svcA _ _ ⟨"node-b"⟩ ⟨"node-c"⟩ _ _ rfl
    (parsePayload_encode_create circA) (parsePayload_encode_create circB)
    rfl rfl rfl rfl).2.2.1

/-- One inbound delivery never removes or changes an existing entry of the
open-proposals map (the CREATE branch only inserts under an absent key). -/
theorem handle_message_preserves (svc : AdminService) (bytes : List Nat)
    (ctx : ServiceMessageContext) (k : String) (p : CircuitProposal)
    (h : mapLookup svc.admin_service_state.open_proposals k = some p) :
    mapLookup (svc.handle_message bytes ctx).2.admin_service_state.open_proposals k
      = some p := by
  unfold AdminService.handle_message
  cases hs : svc.network_sender.isNone with
  | true => simpa [hs] using h
  | false =>
    simp only [hs, Bool.false_eq_true, if_false]
    cases hp : parsePayload bytes with
    | none => simpa using h
    | some envelope =>
      obtain ⟨action, req⟩ := envelope
      cases action with
      | reserved tag => simpa using h
      | CIRCUIT_CREATE_REQUEST =>
        cases hhp : svc.admin_service_state.has_proposal req.circuit.circuit_id with
        | true => simpa [hhp] using h
        | false =>
          have hnone : mapLookup svc.admin_service_state.open_proposals
              req.circuit.circuit_id = none :=
            mapContains_false_lookup _ _ hhp
          have hk : req.circuit.circuit_id ≠ k := by
            intro he
            rw [he, h] at hnone
            exact Option.noConfusion hnone
          simp only [hhp, AdminServiceState.add_proposal]
          simpa [mapLookup_insert_ne _ _ _ _ hk] using h

/-- C2 (amended): for every sequence of inbound `handle_message` calls, once
an entry for a given circuit_id exists in the open-proposals map it is never
removed and never updated — later inbound proposals bearing the same id are
ignored.  (`propose_circuit`, by contrast, overwrites such an entry; see the
counterexample.) -/
theorem handle_message_never_updates
    (svc : AdminService) (msgs : List (List Nat × ServiceMessageContext))
    (k : String) (p : CircuitProposal)
    (h : mapLookup svc.admin_service_state.open_proposals k = some p) :
    mapLookup (handleAll svc msgs).admin_service_state.open_proposals k = some p := by
  induction msgs generalizing svc with
  | nil => simpa [handleAll] using h
  | cons m rest ih =>
    obtain ⟨bytes, ctx⟩ := m
    have hstep := handle_message_preserves svc bytes ctx k p h
    simpa [handleAll] using ih _ hstep

/-- The proposal `svcWithC1` starts with (built from `circA`). -/
def propA : CircuitProposal :=
  { proposal_type := .CREATE
    circuit_id := "c1"
    circuit_hash := sha256 circA
    circuit_proposal := circA }

/-- A started admin service already holding an open proposal for `"c1"`. -/
def svcWithC1 : AdminService :=
  { node_id := "node-a"
    service_id := admin_service_id "node-a"
    network_sender := some okSender
    admin_service_state :=
      { open_proposals := [("c1", propA)], peer_connector := okConnector } }

/-- Witness for C2 (amended): an existing `"c1"` entry survives, unchanged,
a later inbound CREATE delivery bearing the same circuit_id. -/
theorem handle_message_never_updates_witness :
    mapLookup ((handleAll svcWithC1
        [(encodePayload ⟨.CIRCUIT_CREATE_REQUEST, ⟨circB⟩⟩,
          ⟨"node-b"⟩)]).admin_service_state.open_proposals) "c1" = some propA :=
  handle_message_never_updates svcWithC1 _ "c1" propA rfl

/-- Counterexample to C2 as stated: `propose_circuit` bearing an already-seen
circuit_id is neither rejected nor ignored — it succeeds and replaces the
stored entry's value. -/
theorem proposal_entry_updated_counterexample :
    mapLookup svcWithC1.admin_service_state.open_proposals "c1" = some propA ∧
    (svcWithC1.propose_circuit circB).result = .ok () ∧
    mapLookup
        (svcWithC1.propose_circuit circB).service.admin_service_state.open_proposals
        "c1"
      = some { proposal_type := .CREATE
               circuit_id := "c1"
               circuit_hash := sha256 circB
               circuit_proposal := circB } ∧
    ({ proposal_type := .CREATE
       circuit_id := "c1"
       circuit_hash := sha256 circB
       circuit_proposal := circB } : CircuitProposal) ≠ propA := by
  refine ⟨rfl, rfl, rfl, ?_⟩
  decide

/-- The full outcome of a `propose_circuit` call in which every remote
member's connection and every send succeed. -/
theorem propose_circuit_ok_spec (svc : AdminService) (c : Circuit)
    (sender : NetworkSender)
    (hsnd : svc.network_sender = some sender)
    (hconn : ∀ node ∈ c.members, (svc.node_id != node.node_id) = true →
      svc.admin_service_state.peer_connector.connect_peer node.node_id
        node.endpoint = .ok ())
    (hsend : ∀ dest msg, sender.send dest msg = .ok ()) :
    svc.propose_circuit c =
      ⟨.ok (),
       { svc with
         admin_service_state :=
           svc.admin_service_state.add_proposal
             { proposal_type := .CREATE
               circuit_id := c.circuit_id
               circuit_hash := sha256 c
               circuit_proposal := c } },
       (remote_members svc.node_id c.members).map
         (fun n => (n.node_id, n.endpoint)),
       (remote_members svc.node_id c.members).map
         (fun n => (admin_service_id n.node_id,
           encodePayload ⟨.CIRCUIT_CREATE_REQUEST, ⟨c⟩⟩))⟩ := by
  have hcm := connect_members_all_ok svc.node_id
    svc.admin_service_state.peer_connector c.members hconn
  have hsa := send_all_ok sender (encodePayload ⟨.CIRCUIT_CREATE_REQUEST, ⟨c⟩⟩)
    ((remote_members svc.node_id c.members).map SplinterNode.node_id) hsend
  simp [AdminService.propose_circuit, hsnd, hcm, hsa, List.map_map,
    Function.comp]

/-- C3: for a started service whose peer connections all succeed,
`propose_circuit` stores a proposal unconditionally — the resulting map is
exactly an insert-or-overwrite at the circuit's id, with no check for an
existing entry, so an existing entry under that circuit_id is replaced by
the new proposal. -/
theorem propose_circuit_stores_unconditionally
    (svc : AdminService) (c : Circuit)
    (hstarted : svc.network_sender.isSome = true)
    (hconn : ∀ node ∈ c.members, (svc.node_id != node.node_id) = true →
      svc.admin_service_state.peer_connector.connect_peer node.node_id
        node.endpoint = .ok ()) :
    (svc.propose_circuit c).service.admin_service_state.open_proposals
      = mapInsert svc.admin_service_state.open_proposals c.circuit_id
          { proposal_type := .CREATE
            circuit_id := c.circuit_id
            circuit_hash := sha256 c
            circuit_proposal := c } ∧
    mapLookup
        ((svc.propose_circuit c).service.admin_service_state.open_proposals)
        c.circuit_id
      = some { proposal_type := .CREATE
               circuit_id := c.circuit_id
               circuit_hash := sha256 c
               circuit_proposal := c } := by
  cases hsnd : svc.network_sender with
  | none =>
    rw [hsnd] at hstarted
    simp at hstarted
  | some sender =>
    have hcm := connect_members_all_ok svc.node_id
      svc.admin_service_state.peer_connector c.members hconn
    have hsvc : (svc.propose_circuit c).service.admin_service_state.open_proposals
        = mapInsert svc.admin_service_state.open_proposals c.circuit_id
            { proposal_type := .CREATE
              circuit_id := c.circuit_id
              circuit_hash := sha256 c
              circuit_proposal := c } := by
      simp only [AdminService.propose_circuit, hsnd, hcm]
      cases (send_all sender (encodePayload ⟨.CIRCUIT_CREATE_REQUEST, ⟨c⟩⟩)
          (List.map SplinterNode.node_id (remote_members svc.node_id c.members))).2 with
      | error e => simp [AdminServiceState.add_proposal]
      | ok u => simp [AdminServiceState.add_proposal]
    exact ⟨hsvc, by rw [hsvc]; exact mapLookup_insert _ _ _⟩

/-- Witness for C3: at a concrete started service already holding a `"c1"`
entry, proposing a different circuit with the same id overwrites it. -/
theorem propose_circuit_stores_unconditionally_witness :
    mapLookup
        ((svcWithC1.propose_circuit circB).service.admin_service_state.open_proposals)
        "c1"
      = some { proposal_type := .CREATE
               circuit_id := "c1"
               circuit_hash := sha256 circB
               circuit_proposal := circB } :=
  (propose_circuit_stores_unconditionally svcWithC1 circB rfl
    (by intro node hn; simp [circB, circA] at hn)).2

/-- C4: if the peer connector fails for some (non-self) member during
`propose_circuit`, the call returns `UnableToHandleMessage` wrapping a
member's connection error, no proposal is stored (the service is unchanged),
and no envelope is sent. -/
theorem propose_connect_failure_aborts
    (svc : AdminService) (c : Circuit)
    (hstarted : svc.network_sender.isSome = true)
    (hfail : ∃ node ∈ c.members, (svc.node_id != node.node_id) = true ∧
      ∃ e, svc.admin_service_state.peer_connector.connect_peer node.node_id
        node.endpoint = .error e) :
    ∃ node e, node ∈ c.members ∧ (svc.node_id != node.node_id) = true ∧
      svc.admin_service_state.peer_connector.connect_peer node.node_id
        node.endpoint = .error e ∧
      (svc.propose_circuit c).result = .error (.UnableToHandleMessage e) ∧
      (svc.propose_circuit c).service = svc ∧
      (svc.propose_circuit c).sent = [] := by
  cases hsnd : svc.network_sender with
  | none =>
    rw [hsnd] at hstarted
    simp at hstarted
  | some sender =>
    obtain ⟨node, e, hmem, hb, he, hres⟩ := connect_members_fails svc.node_id
      svc.admin_service_state.peer_connector c.members hfail
    refine ⟨node, e, hmem, hb, he, ?_, ?_, ?_⟩ <;>
      simp [AdminService.propose_circuit, hsnd, hres]

/-- A connector that refuses connections to `"node-b"`. -/
def refuseBConnector : PeerConnector :=
  ⟨fun node_id _ =>
    if node_id = "node-b" then .error "connection refused" else .ok ()⟩

/-- A started service on `"node-a"` whose connector refuses `"node-b"`. -/
def svcRefuseB : AdminService :=
  { node_id := "node-a"
    service_id := admin_service_id "node-a"
    network_sender := some okSender
    admin_service_state :=
      { open_proposals := [], peer_connector := refuseBConnector } }

/-- A two-member circuit whose remote member is the refused `"node-b"`. -/
def circAB : Circuit :=
  { circA with members := [⟨"node-a", "tcp://a:8000"⟩, ⟨"node-b", "tcp://b:8000"⟩] }

/-- Witness for C4: at a concrete service whose connector refuses the remote
member, the failing member, wrapped error, unchanged state and empty send
list are all exhibited. -/
theorem propose_connect_failure_aborts_witness :
    ∃ node e, node ∈ circAB.members ∧
      (svcRefuseB.node_id != node.node_id) = true ∧
      svcRefuseB.admin_service_state.peer_connector.connect_peer node.node_id
        node.endpoint = .error e ∧
      (svcRefuseB.propose_circuit circAB).result
        = .error (.UnableToHandleMessage e) ∧
      (svcRefuseB.propose_circuit circAB).service = svcRefuseB ∧
      (svcRefuseB.propose_circuit circAB).sent = [] :=
  propose_connect_failure_aborts svcRefuseB circAB rfl
    ⟨⟨"node-b", "tcp://b:8000"⟩, by decide, by decide, "connection refused", rfl⟩

/-- C5: from node A, a successful `propose_circuit` on a circuit with
members `[A, B, C]` (B, C remote) attempts peer connections for exactly B
and C — never for A — and sends exactly two copies of one serialized
envelope, in member-list order, to the derived identities `admin::B` and
`admin::C`, each decoding to action CIRCUIT_CREATE_REQUEST with an embedded
circuit equal to the original. -/
theorem fan_out_correct
    (svc : AdminService) (sender : NetworkSender) (a b c : SplinterNode)
    (circ : Circuit)
    (hsnd : svc.network_sender = some sender)
    (hmem : circ.members = [a, b, c])
    (ha : a.node_id = svc.node_id)
    (hb : svc.node_id ≠ b.node_id)
    (hc : svc.node_id ≠ c.node_id)
    (hconn : ∀ node ∈ circ.members, (svc.node_id != node.node_id) = true →
      svc.admin_service_state.peer_connector.connect_peer node.node_id
        node.endpoint = .ok ())
    (hsend : ∀ dest msg, sender.send dest msg = .ok ()) :
    (svc.propose_circuit circ).result = .ok () ∧
    (svc.propose_circuit circ).connect_attempts
      = [(b.node_id, b.endpoint), (c.node_id, c.endpoint)] ∧
    ∃ envelope_bytes,
      (svc.propose_circuit circ).sent
        = [(admin_service_id b.node_id, envelope_bytes),
           (admin_service_id c.node_id, envelope_bytes)] ∧
      parsePayload envelope_bytes = some ⟨.CIRCUIT_CREATE_REQUEST, ⟨circ⟩⟩ := by
  have hspec := propose_circuit_ok_spec svc circ sender hsnd hconn hsend
  have hself : (svc.node_id != a.node_id) = false := by
    simp [bne, ha]
  have hb' : (svc.node_id != b.node_id) = true := bne_iff_ne.mpr hb
  have hc' : (svc.node_id != c.node_id) = true := bne_iff_ne.mpr hc
  have hrm : remote_members svc.node_id circ.members = [b, c] := by
    simp [remote_members, hmem, List.filter, hself, hb', hc']
  refine ⟨by simp [hspec], by simp [hspec, hrm],
    encodePayload ⟨.CIRCUIT_CREATE_REQUEST, ⟨circ⟩⟩, by simp [hspec, hrm],
    parsePayload_encode_create circ⟩

/-- The three concrete member nodes of the fan-out witness. -/
def nodeA : SplinterNode := ⟨"node-a", "tcp://a:8000"⟩

/-- Remote member B of the fan-out witness. -/
def nodeB : SplinterNode := ⟨"node-b", "tcp://b:8000"⟩

/-- Remote member C of the fan-out witness. -/
def nodeC : SplinterNode := ⟨"node-c", "tcp://c:8000"⟩

/-- A concrete circuit with members `[A, B, C]`. -/
def circ3 : Circuit := { circA with members := [nodeA, nodeB, nodeC] }

/-- Witness for C5: the connect attempts of the concrete three-member
fan-out are exactly B and C. -/
theorem fan_out_correct_witness :
    (svcA.propose_circuit circ3).connect_attempts
      = [("node-b", "tcp://b:8000"), ("node-c", "tcp://c:8000")] :=
  (fan_out_correct svcA okSender nodeA nodeB nodeC circ3 rfl rfl rfl
    (by decide) (by decide) (fun _ _ _ => rfl) (fun _ _ => rfl)).2.1

/-- C7: the content hash is a pure function of the serialized circuit
bytes — two circuits with identical serializations get identical
`circuit_hash` strings (hence hashing one circuit twice agrees). -/
theorem sha256_deterministic (c1 c2 : Circuit)
    (h : encodeCircuit c1 = encodeCircuit c2) :
    sha256 c1 = sha256 c2 ∧ sha256 c1 = sha256 c1 := by
  constructor
  · unfold sha256
    rw [h]
  · rfl

/-- Witness for C7: the determinism theorem applied at one concrete
circuit against itself. -/
theorem sha256_deterministic_witness :
    sha256 circA = sha256 circA :=
  (sha256_deterministic circA circA rfl).1

/-- C9: on a started service, a well-formed envelope whose action is not
CIRCUIT_CREATE_REQUEST is handled as a success and a no-op — the service
(and so its open-proposals map) is unchanged. -/
theorem unknown_action_tolerated
    (svc : AdminService) (bytes : List Nat) (ctx : ServiceMessageContext)
    (e : CircuitManagementPayload)
    (hstarted : svc.network_sender.isSome = true)
    (hp : parsePayload bytes = some e)
    (ha : e.action ≠ .CIRCUIT_CREATE_REQUEST) :
    svc.handle_message bytes ctx = (.ok (), svc) := by
  cases hsnd : svc.network_sender with
  | none =>
    rw [hsnd] at hstarted
    simp at hstarted
  | some sender =>
    obtain ⟨action, req⟩ := e
    cases action with
    | CIRCUIT_CREATE_REQUEST => exact absurd rfl ha
    | reserved tag => simp [AdminService.handle_message, hsnd, hp]

/-- Witness for C9: a concrete envelope with reserved action tag 5 is
tolerated as a no-op on the concrete started service. -/
theorem unknown_action_tolerated_witness :
    svcA.handle_message (encodePayload ⟨.reserved 5, ⟨circA⟩⟩) ⟨"node-b"⟩
      = (.ok (), svcA) :=
  unknown_action_tolerated svcA _ ⟨"node-b"⟩ ⟨.reserved 5, ⟨circA⟩⟩ rfl
    (by decide) (by decide)

/-- C8: `handle_message` and `propose_circuit` fail with `NotStarted`
exactly when the service holds no send-channel handle (as after `new` or a
successful `stop`); when started, both proceed past that check (neither can
return `NotStarted`). -/
theorem lifecycle_gating
    (svc : AdminService) (bytes : List Nat) (ctx : ServiceMessageContext)
    (c : Circuit) :
    ((svc.handle_message bytes ctx).1 = .error .NotStarted
      ↔ svc.network_sender = none) ∧
    ((svc.propose_circuit c).result = .error .NotStarted
      ↔ svc.network_sender = none) := by
  cases hsnd : svc.network_sender with
  | none =>
    constructor <;>
      simp [AdminService.handle_message, AdminService.propose_circuit, hsnd]
  | some sender =>
    have h1 : (svc.handle_message bytes ctx).1 ≠ .error .NotStarted := by
      unfold AdminService.handle_message
      simp only [hsnd]
      cases hp : parsePayload bytes with
      | none => simp
      | some e =>
        obtain ⟨action, req⟩ := e
        cases action with
        | CIRCUIT_CREATE_REQUEST =>
          by_cases hh : svc.admin_service_state.has_proposal
              req.circuit.circuit_id <;>
            simp [hh]
        | reserved tag => simp
    have h2 : (svc.propose_circuit c).result ≠ .error .NotStarted := by
      unfold AdminService.propose_circuit
      simp only [hsnd]
      cases hcm : (connect_members svc.node_id
          svc.admin_service_state.peer_connector c.members).result with
      | error e => simp [hcm]
      | ok ids =>
        cases hs2 : (send_all sender
            (encodePayload ⟨.CIRCUIT_CREATE_REQUEST, ⟨c⟩⟩) ids).2 with
        | error e => simp [hcm, hs2]
        | ok u => simp [hcm, hs2]
    constructor
    · exact ⟨fun h => absurd h h1, fun h => Option.noConfusion h⟩
    · exact ⟨fun h => absurd h h2, fun h => Option.noConfusion h⟩

/-- C10: `to_hex` writes bytes below 0x10 with a single hex digit (`{:0x}`
has no zero padding), so it is not injective on 32-byte digests — two
distinct digests share one hex string — and the hash string of a 32-byte
digest is not always 64 characters. -/
theorem to_hex_not_injective :
    to_hex (1 :: 18 :: List.replicate 30 0)
      = to_hex (17 :: 2 :: List.replicate 30 0) ∧
    (1 :: 18 :: List.replicate 30 0 : List Nat)
      ≠ 17 :: 2 :: List.replicate 30 0 ∧
    (1 :: 18 :: List.replicate 30 0 : List Nat).length = 32 ∧
    (17 :: 2 :: List.replicate 30 0 : List Nat).length = 32 ∧
    (to_hex (1 :: 18 :: List.replicate 30 0)).length ≠ 64 := by
  refine ⟨by decide, by decide, by decide, by decide, by decide⟩

/-- A well-formed submission body for the REST circuit-creation endpoint. -/
def goodBody : List Nat :=
  encodeString "c1" ++ encodeList encodeService [] ++
    encodeList encodeNode [] ++ encodeAuth .TRUST_AUTHORIZATION ++
    encodePersistence .ANY_PERSISTENCE ++ encodeRoute .ANY_ROUTE ++
    encodeString "x" ++ encodeList encodeNat []

/-- C6 (code evaluation): the local submission path panics (aborts the
process) on a malformed body — the empty body — instead of returning a
structured client error, while a well-formed body is accepted with 202.
This exhibits the defect: `from_payload` unwraps the decode result. -/
theorem malformed_submission_panics :
    CreateCircuit.from_payload [] = .panicked ∧
    create_circuit [] = .panicked ∧
    create_circuit goodBody = .ok 202 := by
  refine ⟨rfl, rfl, by decide⟩
